import Mathlib

/-!
Shallow embedding of the WebGL-Experiments repository (two variants of a
single-quad WebGL demo) and proofs of its specification claims.

The repository consists of two JavaScript files:
  * `main.js` — the white-square variant (fragment shader outputs constant
    white); the file under `src/` ends right after building `programInfo`.
  * the unnamed file (colour-uniform variant) — identical pipeline plus a
    `randomColour` helper and a `colorMatrix` uniform uploaded per draw,
    ending with `initBuffers` and a single `drawScene` call.

The WebGL context `gl` is an external collaborator.  We embed it as:
  * `GLEnv`  — the oracle for everything the context *answers* (compile and
    link status, info logs, attribute/uniform locations, canvas size, and
    the transcendental factor 1/tan(fov/2) consumed by `mat4.perspective`);
  * `GLState` — the record of everything the program *tells* the context:
    a fresh-handle counter and the ordered trace of issued GL commands
    (queries such as `getShaderParameter` are reads and are not traced).
JavaScript numbers are embedded as exact rationals `ℚ` and `Math.round`
as `⌊x + 1/2⌋`; `throw` is embedded as `Except.error` carrying the message,
with the side-effect trace preserved alongside the error.
-/

namespace WebGLExp

/-- Shader stage kind: `gl.VERTEX_SHADER` or `gl.FRAGMENT_SHADER`. -/
inductive ShaderType where
  | vertex
  | fragment
deriving DecidableEq, Repr

/-- WebGL enum constant `gl.ARRAY_BUFFER`. -/
def GL_ARRAY_BUFFER : ℕ := 34962

/-- WebGL enum constant `gl.STATIC_DRAW`. -/
def GL_STATIC_DRAW : ℕ := 35044

/-- WebGL enum constant `gl.DEPTH_TEST`. -/
def GL_DEPTH_TEST : ℕ := 2929

/-- WebGL enum constant `gl.LEQUAL`. -/
def GL_LEQUAL : ℕ := 515

/-- WebGL enum constant `gl.COLOR_BUFFER_BIT`. -/
def GL_COLOR_BUFFER_BIT : ℕ := 16384

/-- WebGL enum constant `gl.DEPTH_BUFFER_BIT`. -/
def GL_DEPTH_BUFFER_BIT : ℕ := 256

/-- WebGL enum constant `gl.TRIANGLE_STRIP`. -/
def GL_TRIANGLE_STRIP : ℕ := 5

/-- WebGL enum constant `gl.FLOAT`. -/
def GL_FLOAT : ℕ := 5126

/-- One GL command issued by the program (state-changing calls only;
read-only queries are answered by `GLEnv` and not recorded). -/
inductive GLCall where
  | createShader (t : ShaderType)
  | shaderSource (shader : ℕ) (source : String)
  | compileShader (shader : ℕ)
  | deleteShader (shader : ℕ)
  | createProgram
  | attachShader (prog : ℕ) (shader : ℕ)
  | linkProgram (prog : ℕ)
  | createBuffer
  | bindBuffer (target : ℕ) (buffer : ℕ)
  | bufferData (target : ℕ) (data : List ℚ) (usage : ℕ)
  | clearColor (r g b a : ℚ)
  | clearDepth (d : ℚ)
  | enable (cap : ℕ)
  | depthFunc (f : ℕ)
  | clear (mask : ℕ)
  | vertexAttribPointer (loc : ℤ) (numComponents : ℕ) (type : ℕ)
      (normalise : Bool) (stride offset : ℕ)
  | enableVertexAttribArray (loc : ℤ)
  | useProgram (prog : ℕ)
  | uniformMatrix4fv (loc : ℤ) (transpose : Bool) (value : List ℚ)
  | uniform3f (loc : ℤ) (x y z : ℚ)
  | drawArrays (mode : ℕ) (first : ℤ) (count : ℕ)
deriving DecidableEq, Repr

/-- The mutable GL side: a fresh-handle counter and the command trace. -/
structure GLState where
  nextId : ℕ
  trace : List GLCall
deriving DecidableEq, Repr

/-- The oracle half of the WebGL context: answers to every read the
program performs, fixed for one run. -/
structure GLEnv where
  /-- result of `getShaderParameter(shader, COMPILE_STATUS)` for a shader
  of the given stage holding the given source -/
  compileOk : ShaderType → String → Bool
  /-- result of `getShaderInfoLog` for that shader -/
  shaderInfoLog : ShaderType → String → String
  /-- result of `getProgramParameter(prog, LINK_STATUS)` -/
  linkOk : Bool
  /-- result of `getProgramInfoLog` -/
  programInfoLog : String
  /-- result of `getAttribLocation(prog, name)` -/
  attribLoc : String → ℤ
  /-- result of `getUniformLocation(prog, name)` -/
  uniformLoc : String → ℤ
  /-- `gl.canvas.clientWidth` -/
  canvasClientWidth : ℚ
  /-- `gl.canvas.clientHeight` -/
  canvasClientHeight : ℚ
  /-- the value `1 / Math.tan(fieldOfView / 2)` computed inside
  `mat4.perspective`; supplied by the environment because `tan` (of the
  45-degree field of view) is transcendental -/
  invTanHalfFov : ℚ

/-- JavaScript `Math.round` on an exact rational: round half away from
zero is `⌊x + 1/2⌋` for the non-negative inputs that occur here. -/
def jsRound (q : ℚ) : ℤ := ⌊q + 1 / 2⌋

/-- The `{R, G, B}` object returned by `randomColour`. -/
structure Colour where
  R : ℤ
  G : ℤ
  B : ℤ
deriving DecidableEq, Repr

/-- `randomColour` from the colour-uniform variant:
`o = Math.round, r = Math.random, s = 255;` then each channel is
`o((r() * s) / 255)`.  The three consumed random values are the
arguments. -/
def randomColour (r1 r2 r3 : ℚ) : Colour :=
  { R := jsRound ((r1 * 255) / 255)
    G := jsRound ((r2 * 255) / 255)
    B := jsRound ((r3 * 255) / 255) }

/-- `loadShaders(gl, type, source)`: create a shader, send the source,
compile; on compile failure delete the shader and throw an error built
from the info log, otherwise return the shader handle. -/
def loadShaders (env : GLEnv) (st : GLState) (t : ShaderType)
    (source : String) : GLState × Except String ℕ :=
  let shader := st.nextId
  let st1 : GLState :=
    { nextId := st.nextId + 1
      trace := st.trace ++
        [GLCall.createShader t, GLCall.shaderSource shader source,
         GLCall.compileShader shader] }
  if env.compileOk t source then
    (st1, Except.ok shader)
  else
    let error := "An error occured compiling the shaders: " ++
      env.shaderInfoLog t source
    ({ st1 with trace := st1.trace ++ [GLCall.deleteShader shader] },
     Except.error error)

/-- `initShaderProgram(gl, vertexShaderSource, fragmentShaderSource)`:
compile both stages, create a program, attach both shaders, link; on
link failure throw an error built from the program info log, otherwise
return the program handle. -/
def initShaderProgram (env : GLEnv) (st : GLState)
    (vertexShaderSource fragmentShaderSource : String) :
    GLState × Except String ℕ :=
  match loadShaders env st ShaderType.vertex vertexShaderSource with
  | (st1, Except.error e) => (st1, Except.error e)
  | (st1, Except.ok vertexShader) =>
    match loadShaders env st1 ShaderType.fragment fragmentShaderSource with
    | (st2, Except.error e) => (st2, Except.error e)
    | (st2, Except.ok fragmentShader) =>
      let shaderProgram := st2.nextId
      let st3 : GLState :=
        { nextId := st2.nextId + 1
          trace := st2.trace ++
            [GLCall.createProgram,
             GLCall.attachShader shaderProgram vertexShader,
             GLCall.attachShader shaderProgram fragmentShader,
             GLCall.linkProgram shaderProgram] }
      if env.linkOk then
        (st3, Except.ok shaderProgram)
      else
        (st3, Except.error ("Unable to initialize the shader program: " ++
          env.programInfoLog))

/-- `initBuffers(gl)`: create one buffer, bind it to `ARRAY_BUFFER`,
upload the fixed square positions with `STATIC_DRAW`, and return the
object literal `{ position: positionBuffer }` (embedded as a one-entry
association list). -/
def initBuffers (st : GLState) : GLState × List (String × ℕ) :=
  let positionBuffer := st.nextId
  let positions : List ℚ := [-1, 1, 1, 1, -1, -1, 1, -1]
  ({ nextId := st.nextId + 1
     trace := st.trace ++
       [GLCall.createBuffer,
        GLCall.bindBuffer GL_ARRAY_BUFFER positionBuffer,
        GLCall.bufferData GL_ARRAY_BUFFER positions GL_STATIC_DRAW] },
   [("position", positionBuffer)])

/-- `mat4.create()` from gl-matrix: the 4x4 identity in column-major
order. -/
def mat4_create : List ℚ :=
  [1, 0, 0, 0, 0, 1, 0, 0, 0, 0, 1, 0, 0, 0, 0, 1]

/-- `mat4.translate(out, a, [x, y, z])` from gl-matrix in the `out === a`
case used here: elements 0-11 are kept and the translation column 12-15
becomes `a[i]*x + a[4+i]*y + a[8+i]*z + a[12+i]`. -/
def mat4_translate (a : List ℚ) (x y z : ℚ) : List ℚ :=
  a.take 12 ++
    [a.getD 0 0 * x + a.getD 4 0 * y + a.getD 8 0 * z + a.getD 12 0,
     a.getD 1 0 * x + a.getD 5 0 * y + a.getD 9 0 * z + a.getD 13 0,
     a.getD 2 0 * x + a.getD 6 0 * y + a.getD 10 0 * z + a.getD 14 0,
     a.getD 3 0 * x + a.getD 7 0 * y + a.getD 11 0 * z + a.getD 15 0]

/-- `mat4.perspective(out, fovy, aspect, near, far)` from gl-matrix with
finite `far`, given `f = 1 / tan(fovy / 2)` (supplied by `GLEnv` since it
is transcendental). -/
def mat4_perspective (f aspect near far : ℚ) : List ℚ :=
  let nf := 1 / (near - far)
  [f / aspect, 0, 0, 0,
   0, f, 0, 0,
   0, 0, (far + near) * nf, -1,
   0, 0, 2 * far * near * nf, 0]

/-- The `programInfo` object of the colour-uniform variant: program handle
plus the queried attribute location and the three uniform locations. -/
structure ProgramInfo where
  program : ℕ
  vertexPosition : ℤ
  projectionMatrix : ℤ
  modelViewMatrix : ℤ
  colorMatrix : ℤ
deriving DecidableEq, Repr

/-- The `programInfo` object of the white-square variant (`main.js`): no
`colorMatrix` uniform. -/
structure ProgramInfoWhite where
  program : ℕ
  vertexPosition : ℤ
  projectionMatrix : ℤ
  modelViewMatrix : ℤ
deriving DecidableEq, Repr

/-- The vertex shader source (identical in both variants). -/
def vertexShaderSource : String :=
  "\n    attribute vec4 aVertexPosition;\n\n    uniform mat4 uModelViewMatrix;\n    uniform mat4 uProjectionMatrix;\n\n    void main() \x7b\n      gl_Position = uProjectionMatrix * uModelViewMatrix * aVertexPosition;\n    \x7d\n"

/-- The fragment shader source of the white-square variant (`main.js`). -/
def fragmentShaderSourceWhite : String :=
  "\n    void main() \x7b\n        gl_FragColor = vec4(1.0, 1.0, 1.0, 1.0);\n    \x7d\n"

/-- The fragment shader source of the colour-uniform variant. -/
def fragmentShaderSourceColour : String :=
  "\n    precision mediump float;\n    uniform vec3 colorMatrix;\n    void main() \x7b\n        gl_FragColor = vec4(colorMatrix, 1.0);\n    \x7d\n"

/-- `buffers.position`: the property read `drawScene` performs on the
object returned by `initBuffers`. -/
def positionOf (buffers : List (String × ℕ)) : ℕ :=
  (buffers.lookup "position").getD 0

/-- Result of a `drawScene` call.  JavaScript passes `programInfo` and
`buffers` by reference, so the embedding also returns their post-call
values: any field mutation in the source would show up here. -/
structure DrawResult where
  state : GLState
  nextRandomIndex : ℕ
  programInfo : ProgramInfo
  buffers : List (String × ℕ)

/-- `drawScene(gl, programInfo, buffers)` of the colour-uniform variant,
line for line: clear state setup, projection and model-view matrices,
attribute wiring, program activation, uniform uploads (including the
random colour, consuming `rng idx`, `rng (idx+1)`, `rng (idx+2)` from the
random source), and the single `drawArrays`. -/
def drawScene (env : GLEnv) (rng : ℕ → ℚ) (idx : ℕ) (st : GLState)
    (info : ProgramInfo) (buffers : List (String × ℕ)) : DrawResult :=
  let st1 : GLState :=
    { st with trace := st.trace ++
        [GLCall.clearColor 0 0 0 1,
         GLCall.clearDepth 1,
         GLCall.enable GL_DEPTH_TEST,
         GLCall.depthFunc GL_LEQUAL,
         GLCall.clear (GL_COLOR_BUFFER_BIT ||| GL_DEPTH_BUFFER_BIT)] }
  let aspect := env.canvasClientWidth / env.canvasClientHeight
  let zNear : ℚ := 1 / 10
  let zFar : ℚ := 100
  let projectionMatrix := mat4_perspective env.invTanHalfFov aspect zNear zFar
  let modelViewMatrix := mat4_translate mat4_create (-0) 0 (-6)
  let st2 : GLState :=
    { st1 with trace := st1.trace ++
        [GLCall.bindBuffer GL_ARRAY_BUFFER (positionOf buffers),
         GLCall.vertexAttribPointer info.vertexPosition 2 GL_FLOAT false 0 0,
         GLCall.enableVertexAttribArray info.vertexPosition,
         GLCall.useProgram info.program,
         GLCall.uniformMatrix4fv info.projectionMatrix false projectionMatrix,
         GLCall.uniformMatrix4fv info.modelViewMatrix false modelViewMatrix] }
  let colour := randomColour (rng idx) (rng (idx + 1)) (rng (idx + 2))
  let st3 : GLState :=
    { st2 with trace := st2.trace ++
        [GLCall.uniform3f info.colorMatrix colour.R colour.G colour.B,
         GLCall.drawArrays GL_TRIANGLE_STRIP 0 4] }
  { state := st3, nextRandomIndex := idx + 3
    programInfo := info, buffers := buffers }

/-- Modelled from the spec: the white-square variant's `drawScene` is not
under `src/` (`main.js` ends after `programInfo`); spec section 4.4 gives
its algorithm — identical to the colour variant's except that step 9
(random colour generation and the colour-uniform upload) belongs only to
the colour-uniform variant. -/
def drawSceneWhite (env : GLEnv) (st : GLState) (info : ProgramInfoWhite)
    (buffers : List (String × ℕ)) : GLState :=
  let st1 : GLState :=
    { st with trace := st.trace ++
        [GLCall.clearColor 0 0 0 1,
         GLCall.clearDepth 1,
         GLCall.enable GL_DEPTH_TEST,
         GLCall.depthFunc GL_LEQUAL,
         GLCall.clear (GL_COLOR_BUFFER_BIT ||| GL_DEPTH_BUFFER_BIT)] }
  let aspect := env.canvasClientWidth / env.canvasClientHeight
  let zNear : ℚ := 1 / 10
  let zFar : ℚ := 100
  let projectionMatrix := mat4_perspective env.invTanHalfFov aspect zNear zFar
  let modelViewMatrix := mat4_translate mat4_create (-0) 0 (-6)
  { st1 with trace := st1.trace ++
      [GLCall.bindBuffer GL_ARRAY_BUFFER (positionOf buffers),
       GLCall.vertexAttribPointer info.vertexPosition 2 GL_FLOAT false 0 0,
       GLCall.enableVertexAttribArray info.vertexPosition,
       GLCall.useProgram info.program,
       GLCall.uniformMatrix4fv info.projectionMatrix false projectionMatrix,
       GLCall.uniformMatrix4fv info.modelViewMatrix false modelViewMatrix,
       GLCall.drawArrays GL_TRIANGLE_STRIP 0 4] }

/-- Top level of the colour-uniform variant: `initShaderProgram`, build
`programInfo`, `initBuffers`, then one `drawScene` call.  A thrown error
propagates to the top, keeping the GL trace issued so far. -/
def runColourVariant (env : GLEnv) (rng : ℕ → ℚ) :
    GLState × Except String Unit :=
  let st0 : GLState := { nextId := 0, trace := [] }
  match initShaderProgram env st0 vertexShaderSource fragmentShaderSourceColour with
  | (st, Except.error e) => (st, Except.error e)
  | (st, Except.ok shaderProgram) =>
    let info : ProgramInfo :=
      { program := shaderProgram
        vertexPosition := env.attribLoc "aVertexPosition"
        projectionMatrix := env.uniformLoc "uProjectionMatrix"
        modelViewMatrix := env.uniformLoc "uModelViewMatrix"
        colorMatrix := env.uniformLoc "colorMatrix" }
    let (st', buffers) := initBuffers st
    ((drawScene env rng 0 st' info buffers).state, Except.ok ())

/-- Top level of the white-square variant.  `main.js` under `src/` ends
after building `programInfo`; the tail below the comment is
Modelled from the spec: spec section 2 states that both variants render
exactly once per process run, so the missing tail of `main.js` is one
`initBuffers` call followed by one `drawScene` call, as in the colour
variant. -/
def runWhiteVariant (env : GLEnv) : GLState × Except String Unit :=
  let st0 : GLState := { nextId := 0, trace := [] }
  match initShaderProgram env st0 vertexShaderSource fragmentShaderSourceWhite with
  | (st, Except.error e) => (st, Except.error e)
  | (st, Except.ok shaderProgram) =>
    let info : ProgramInfoWhite :=
      { program := shaderProgram
        vertexPosition := env.attribLoc "aVertexPosition"
        projectionMatrix := env.uniformLoc "uProjectionMatrix"
        modelViewMatrix := env.uniformLoc "uModelViewMatrix" }
    -- Modelled from the spec from here on (tail missing from src/main.js).
    let (st', buffers) := initBuffers st
    (drawSceneWhite env st' info buffers, Except.ok ())

/-- Is this call a `drawArrays`? -/
def GLCall.isDrawArrays : GLCall → Bool
  | GLCall.drawArrays _ _ _ => true
  | _ => false

/-- Is this call a `deleteShader`? -/
def GLCall.isDeleteShader : GLCall → Bool
  | GLCall.deleteShader _ => true
  | _ => false

/-- The sub-trace of `drawArrays` calls. -/
def drawCallsOf (t : List GLCall) : List GLCall :=
  t.filter GLCall.isDrawArrays

/-- The sub-trace of `deleteShader` calls. -/
def deleteShaderCallsOf (t : List GLCall) : List GLCall :=
  t.filter GLCall.isDeleteShader

/-- `s` contains `sub` as a substring. -/
def strContains (s sub : String) : Prop :=
  ∃ a b, s = a ++ sub ++ b

/-- An environment whose every answer succeeds (used to instantiate
hypotheses at concrete inputs). -/
def envAllOk : GLEnv :=
  { compileOk := fun _ _ => true
    shaderInfoLog := fun _ _ => "slog"
    linkOk := true
    programInfoLog := "plog"
    attribLoc := fun _ => 0
    uniformLoc := fun _ => 1
    canvasClientWidth := 2
    canvasClientHeight := 1
    invTanHalfFov := 1 }

/-- An environment where both stages compile but linking fails. -/
def envLinkFail : GLEnv :=
  { envAllOk with linkOk := false }

/-- An environment where the vertex stage compiles and the fragment
stage fails to compile. -/
def envFragFail : GLEnv :=
  { envAllOk with
    compileOk := fun t _ =>
      match t with
      | ShaderType.vertex => true
      | ShaderType.fragment => false }

/-- A constant random source. -/
def rngHalf : ℕ → ℚ := fun _ => 1 / 2

/-- `Math.round((r * 255) / 255)` of a uniform value `r ∈ [0, 1)` is 0
or 1: the scale and the divide cancel exactly, and rounding a value in
`[0, 1)` gives 0 or 1. -/
theorem jsRound_unit (r : ℚ) (h0 : 0 ≤ r) (h1 : r < 1) :
    jsRound (r * 255 / 255) = 0 ∨ jsRound (r * 255 / 255) = 1 := by
  have hr : r * 255 / 255 = r := by ring
  rw [jsRound, hr]
  have low : (0 : ℤ) ≤ ⌊r + 1 / 2⌋ := by
    apply Int.le_floor.mpr
    push_cast
    linarith
  have high : ⌊r + 1 / 2⌋ < 2 := by
    apply Int.floor_lt.mpr
    push_cast
    linarith
  omega

/-- C1: for any values of the uniform random source in `[0, 1)`, each of
the three channels `R`, `G`, `B` computed by `randomColour` as
`round((random() * 255) / 255)` is exactly 0 or exactly 1; consequently
every channel value that a `drawScene` invocation of the colour-uniform
variant uploads via `uniform3f` is exactly 0 or exactly 1. -/
theorem randomColour_channels_binary (r1 r2 r3 : ℚ)
    (h1 : 0 ≤ r1) (h1' : r1 < 1) (h2 : 0 ≤ r2) (h2' : r2 < 1)
    (h3 : 0 ≤ r3) (h3' : r3 < 1) :
    ((randomColour r1 r2 r3).R = 0 ∨ (randomColour r1 r2 r3).R = 1) ∧
    ((randomColour r1 r2 r3).G = 0 ∨ (randomColour r1 r2 r3).G = 1) ∧
    ((randomColour r1 r2 r3).B = 0 ∨ (randomColour r1 r2 r3).B = 1) ∧
    ∀ (env : GLEnv) (rng : ℕ → ℚ) (idx : ℕ) (st : GLState)
      (info : ProgramInfo) (buffers : List (String × ℕ)),
      (∀ n, 0 ≤ rng n ∧ rng n < 1) →
      ∀ loc x y z,
        GLCall.uniform3f loc x y z ∈
          (drawScene env rng idx st info buffers).state.trace →
        GLCall.uniform3f loc x y z ∈ st.trace ∨
          ((x = 0 ∨ x = 1) ∧ (y = 0 ∨ y = 1) ∧ (z = 0 ∨ z = 1)) := by
  refine ⟨jsRound_unit r1 h1 h1', jsRound_unit r2 h2 h2',
    jsRound_unit r3 h3 h3', ?_⟩
  intro env rng idx st info buffers hrng loc x y z hmem
  have hcast : ∀ m : ℤ, m = 0 ∨ m = 1 → ((m : ℚ) = 0 ∨ (m : ℚ) = 1) := by
    rintro m (rfl | rfl) <;> simp
  simp [drawScene] at hmem
  rcases hmem with hmem | ⟨hloc, hx, hy, hz⟩
  · exact Or.inl hmem
  · subst hx
    subst hy
    subst hz
    refine Or.inr ⟨?_, ?_, ?_⟩
    · exact hcast _ (jsRound_unit (rng idx) (hrng idx).1 (hrng idx).2)
    · exact hcast _ (jsRound_unit (rng (idx + 1)) (hrng (idx + 1)).1
        (hrng (idx + 1)).2)
    · exact hcast _ (jsRound_unit (rng (idx + 2)) (hrng (idx + 2)).1
        (hrng (idx + 2)).2)

/-- Witness for C1 at the concrete random values 1/3, 1/2, 9/10. -/
theorem randomColour_channels_binary_witness :
    ((randomColour (1 / 3) (1 / 2) (9 / 10)).R = 0 ∨
      (randomColour (1 / 3) (1 / 2) (9 / 10)).R = 1) ∧
    ((randomColour (1 / 3) (1 / 2) (9 / 10)).G = 0 ∨
      (randomColour (1 / 3) (1 / 2) (9 / 10)).G = 1) ∧
    ((randomColour (1 / 3) (1 / 2) (9 / 10)).B = 0 ∨
      (randomColour (1 / 3) (1 / 2) (9 / 10)).B = 1) := by
  have h := randomColour_channels_binary (1 / 3) (1 / 2) (9 / 10)
    (by norm_num) (by norm_num) (by norm_num) (by norm_num)
    (by norm_num) (by norm_num)
  exact ⟨h.1, h.2.1, h.2.2.1⟩

/-- C3: for every stage kind and source string, if the context reports
compile status false then `loadShaders` appends a `deleteShader` for the
created shader and returns an error whose message contains the stage's
info log; if compile status is true it returns the shader handle with no
error and deletes nothing. -/
theorem loadShaders_compile_spec (env : GLEnv) (st : GLState)
    (t : ShaderType) (source : String) :
    (loadShaders env st t source).2 =
      (if env.compileOk t source then Except.ok st.nextId
       else Except.error ("An error occured compiling the shaders: " ++
         env.shaderInfoLog t source)) ∧
    (loadShaders env st t source).1.trace =
      st.trace ++
        [GLCall.createShader t, GLCall.shaderSource st.nextId source,
         GLCall.compileShader st.nextId] ++
        (if env.compileOk t source then []
         else [GLCall.deleteShader st.nextId]) ∧
    strContains
      ("An error occured compiling the shaders: " ++ env.shaderInfoLog t source)
      (env.shaderInfoLog t source) := by
  refine ⟨?_, ?_, "An error occured compiling the shaders: ", "", by simp⟩
  · by_cases h : env.compileOk t source <;> simp [loadShaders, h]
  · by_cases h : env.compileOk t source <;> simp [loadShaders, h]

/-- C5: `initBuffers` creates exactly one buffer, binds it to
`ARRAY_BUFFER`, uploads exactly the eight values
`[-1, 1, 1, 1, -1, -1, 1, -1]` with `STATIC_DRAW`, and returns the
one-entry map `{ position: positionBuffer }`. -/
theorem initBuffers_spec (st : GLState) :
    initBuffers st =
      ({ nextId := st.nextId + 1
         trace := st.trace ++
           [GLCall.createBuffer,
            GLCall.bindBuffer GL_ARRAY_BUFFER st.nextId,
            GLCall.bufferData GL_ARRAY_BUFFER
              [-1, 1, 1, 1, -1, -1, 1, -1] GL_STATIC_DRAW] },
       [("position", st.nextId)]) := rfl

/-- C2: in each variant, a run in which both shader compilations and the
program link succeed issues exactly one draw call. -/
theorem single_draw_call (env : GLEnv) (rng : ℕ → ℚ)
    (hv : env.compileOk ShaderType.vertex vertexShaderSource = true)
    (hfC : env.compileOk ShaderType.fragment fragmentShaderSourceColour = true)
    (hfW : env.compileOk ShaderType.fragment fragmentShaderSourceWhite = true)
    (hl : env.linkOk = true) :
    (drawCallsOf (runColourVariant env rng).1.trace).length = 1 ∧
    (drawCallsOf (runWhiteVariant env).1.trace).length = 1 := by
  constructor <;>
    simp [runColourVariant, runWhiteVariant, initShaderProgram, loadShaders,
      initBuffers, drawScene, drawSceneWhite, drawCallsOf,
      GLCall.isDrawArrays, hv, hfC, hfW, hl]

/-- Witness for C2: the all-success environment. -/
theorem single_draw_call_witness :
    (drawCallsOf (runColourVariant envAllOk rngHalf).1.trace).length = 1 ∧
    (drawCallsOf (runWhiteVariant envAllOk).1.trace).length = 1 :=
  single_draw_call envAllOk rngHalf rfl rfl rfl rfl

/-- C4: if both stages compile and the context reports link status false,
`initShaderProgram` returns an error whose message contains the program
info log and no draw call is ever issued in that run (either variant);
if link status is true it returns the program handle. -/
theorem initShaderProgram_link_spec (env env' : GLEnv) (rng : ℕ → ℚ)
    (st : GLState) (vs fs : String)
    (hv : env.compileOk ShaderType.vertex vs = true)
    (hf : env.compileOk ShaderType.fragment fs = true)
    (hl : env.linkOk = false)
    (hv' : env'.compileOk ShaderType.vertex vs = true)
    (hf' : env'.compileOk ShaderType.fragment fs = true)
    (hl' : env'.linkOk = true) :
    (initShaderProgram env st vs fs).2 =
      Except.error ("Unable to initialize the shader program: " ++
        env.programInfoLog) ∧
    strContains
      ("Unable to initialize the shader program: " ++ env.programInfoLog)
      env.programInfoLog ∧
    drawCallsOf (runColourVariant env rng).1.trace = [] ∧
    drawCallsOf (runWhiteVariant env).1.trace = [] ∧
    (initShaderProgram env' st vs fs).2 = Except.ok (st.nextId + 2) := by
  refine ⟨?_, ⟨"Unable to initialize the shader program: ", "", by simp⟩,
    ?_, ?_, ?_⟩
  · simp [initShaderProgram, loadShaders, hv, hf, hl]
  · by_cases hcv : env.compileOk ShaderType.vertex vertexShaderSource <;>
      by_cases hcf : env.compileOk ShaderType.fragment fragmentShaderSourceColour <;>
      simp [runColourVariant, initShaderProgram, loadShaders, drawCallsOf,
        GLCall.isDrawArrays, hl, hcv, hcf]
  · by_cases hcv : env.compileOk ShaderType.vertex vertexShaderSource <;>
      by_cases hcf : env.compileOk ShaderType.fragment fragmentShaderSourceWhite <;>
      simp [runWhiteVariant, initShaderProgram, loadShaders, drawCallsOf,
        GLCall.isDrawArrays, hl, hcv, hcf]
  · simp [initShaderProgram, loadShaders, hv', hf', hl']

/-- Witness for C4: link failure versus link success at a concrete state. -/
theorem initShaderProgram_link_spec_witness :
    (initShaderProgram envLinkFail { nextId := 0, trace := [] } "v" "f").2 =
      Except.error ("Unable to initialize the shader program: " ++
        envLinkFail.programInfoLog) ∧
    drawCallsOf (runColourVariant envLinkFail rngHalf).1.trace = [] ∧
    (initShaderProgram envAllOk { nextId := 0, trace := [] } "v" "f").2 =
      Except.ok 2 := by
  have h := initShaderProgram_link_spec envLinkFail envAllOk rngHalf
    { nextId := 0, trace := [] } "v" "f" rfl rfl rfl rfl rfl rfl
  exact ⟨h.1, h.2.2.1, h.2.2.2.2⟩

/-- C6: in a colour-variant run where initialization succeeds and
`drawScene` executes, the issued trace contains exactly one `drawArrays`
call, with mode `TRIANGLE_STRIP`, first vertex 0 and vertex count 4. -/
theorem draw_call_shape (env : GLEnv) (rng : ℕ → ℚ)
    (hv : env.compileOk ShaderType.vertex vertexShaderSource = true)
    (hf : env.compileOk ShaderType.fragment fragmentShaderSourceColour = true)
    (hl : env.linkOk = true) :
    drawCallsOf (runColourVariant env rng).1.trace =
      [GLCall.drawArrays GL_TRIANGLE_STRIP 0 4] := by
  simp [runColourVariant, initShaderProgram, loadShaders, initBuffers,
    drawScene, drawCallsOf, GLCall.isDrawArrays, hv, hf, hl]

/-- Witness for C6: the all-success environment. -/
theorem draw_call_shape_witness :
    drawCallsOf (runColourVariant envAllOk rngHalf).1.trace =
      [GLCall.drawArrays GL_TRIANGLE_STRIP 0 4] :=
  draw_call_shape envAllOk rngHalf rfl rfl rfl

/-- C7: the model-view matrix uploaded by every `drawScene` invocation is
the identity translated by (0, 0, -6): identity except for the z entry of
the translation column, which is -6. -/
theorem modelView_matrix_spec (env : GLEnv) (rng : ℕ → ℚ) (idx : ℕ)
    (st : GLState) (info : ProgramInfo) (buffers : List (String × ℕ)) :
    mat4_translate mat4_create (-0) 0 (-6) =
      [1, 0, 0, 0, 0, 1, 0, 0, 0, 0, 1, 0, 0, 0, -6, 1] ∧
    GLCall.uniformMatrix4fv info.modelViewMatrix false
        (mat4_translate mat4_create (-0) 0 (-6)) ∈
      (drawScene env rng idx st info buffers).state.trace := by
  constructor
  · norm_num [mat4_translate, mat4_create]
  · simp [drawScene]

/-- C8: every `drawScene` invocation sets the clear color to opaque black
and the clear depth to 1, enables depth testing with the `LEQUAL`
comparison, and clears the color and depth buffers, in this order and all
before the draw call. -/
theorem clear_setup_before_draw (env : GLEnv) (rng : ℕ → ℚ) (idx : ℕ)
    (st : GLState) (info : ProgramInfo) (buffers : List (String × ℕ)) :
    ∃ rest,
      (drawScene env rng idx st info buffers).state.trace =
        st.trace ++
          [GLCall.clearColor 0 0 0 1,
           GLCall.clearDepth 1,
           GLCall.enable GL_DEPTH_TEST,
           GLCall.depthFunc GL_LEQUAL,
           GLCall.clear (GL_COLOR_BUFFER_BIT ||| GL_DEPTH_BUFFER_BIT)] ++
          rest ∧
      drawCallsOf rest = [GLCall.drawArrays GL_TRIANGLE_STRIP 0 4] := by
  refine ⟨[GLCall.bindBuffer GL_ARRAY_BUFFER (positionOf buffers),
    GLCall.vertexAttribPointer info.vertexPosition 2 GL_FLOAT false 0 0,
    GLCall.enableVertexAttribArray info.vertexPosition,
    GLCall.useProgram info.program,
    GLCall.uniformMatrix4fv info.projectionMatrix false
      (mat4_perspective env.invTanHalfFov
        (env.canvasClientWidth / env.canvasClientHeight) (1 / 10) 100),
    GLCall.uniformMatrix4fv info.modelViewMatrix false
      (mat4_translate mat4_create (-0) 0 (-6)),
    GLCall.uniform3f info.colorMatrix
      ((randomColour (rng idx) (rng (idx + 1)) (rng (idx + 2))).R : ℚ)
      ((randomColour (rng idx) (rng (idx + 1)) (rng (idx + 2))).G : ℚ)
      ((randomColour (rng idx) (rng (idx + 1)) (rng (idx + 2))).B : ℚ),
    GLCall.drawArrays GL_TRIANGLE_STRIP 0 4], ?_, ?_⟩
  · simp [drawScene]
  · simp [drawCallsOf, GLCall.isDrawArrays]

/-- C9: when the fragment shader fails to compile, the only
`deleteShader` issued is for that fragment shader (the successfully
compiled vertex shader is not deleted); when both stages compile and the
link fails, no `deleteShader` is issued at all. -/
theorem deleteShader_only_on_compile_failure (env env' : GLEnv)
    (st : GLState) (vs fs : String)
    (h1 : env.compileOk ShaderType.vertex vs = true)
    (h2 : env.compileOk ShaderType.fragment fs = false)
    (h3 : env'.compileOk ShaderType.vertex vs = true)
    (h4 : env'.compileOk ShaderType.fragment fs = true)
    (h5 : env'.linkOk = false) :
    deleteShaderCallsOf (initShaderProgram env st vs fs).1.trace =
      deleteShaderCallsOf st.trace ++ [GLCall.deleteShader (st.nextId + 1)] ∧
    deleteShaderCallsOf (initShaderProgram env' st vs fs).1.trace =
      deleteShaderCallsOf st.trace := by
  constructor <;>
    simp [initShaderProgram, loadShaders, deleteShaderCallsOf,
      GLCall.isDeleteShader, h1, h2, h3, h4, h5]

/-- Witness for C9: fragment-compile failure versus link failure from the
empty state. -/
theorem deleteShader_only_on_compile_failure_witness :
    deleteShaderCallsOf
        (initShaderProgram envFragFail { nextId := 0, trace := [] } "v" "f").1.trace =
      [GLCall.deleteShader 1] ∧
    deleteShaderCallsOf
        (initShaderProgram envLinkFail { nextId := 0, trace := [] } "v" "f").1.trace =
      [] := by
  simpa using deleteShader_only_on_compile_failure envFragFail envLinkFail
    { nextId := 0, trace := [] } "v" "f" rfl rfl rfl rfl rfl

/-- C10: `drawScene` does not mutate its `programInfo` or `buffers`
arguments and creates no GL objects; it only appends commands to the GL
trace. -/
theorem drawScene_no_mutation (env : GLEnv) (rng : ℕ → ℚ) (idx : ℕ)
    (st : GLState) (info : ProgramInfo) (buffers : List (String × ℕ)) :
    (drawScene env rng idx st info buffers).programInfo = info ∧
    (drawScene env rng idx st info buffers).buffers = buffers ∧
    (drawScene env rng idx st info buffers).state.nextId = st.nextId ∧
    ∃ newCalls,
      (drawScene env rng idx st info buffers).state.trace =
        st.trace ++ newCalls := by
  refine ⟨rfl, rfl, rfl, ?_⟩
  refine ⟨[GLCall.clearColor 0 0 0 1,
    GLCall.clearDepth 1,
    GLCall.enable GL_DEPTH_TEST,
    GLCall.depthFunc GL_LEQUAL,
    GLCall.clear (GL_COLOR_BUFFER_BIT ||| GL_DEPTH_BUFFER_BIT),
    GLCall.bindBuffer GL_ARRAY_BUFFER (positionOf buffers),
    GLCall.vertexAttribPointer info.vertexPosition 2 GL_FLOAT false 0 0,
    GLCall.enableVertexAttribArray info.vertexPosition,
    GLCall.useProgram info.program,
    GLCall.uniformMatrix4fv info.projectionMatrix false
      (mat4_perspective env.invTanHalfFov
        (env.canvasClientWidth / env.canvasClientHeight) (1 / 10) 100),
    GLCall.uniformMatrix4fv info.modelViewMatrix false
      (mat4_translate mat4_create (-0) 0 (-6)),
    GLCall.uniform3f info.colorMatrix
      ((randomColour (rng idx) (rng (idx + 1)) (rng (idx + 2))).R : ℚ)
      ((randomColour (rng idx) (rng (idx + 1)) (rng (idx + 2))).G : ℚ)
      ((randomColour (rng idx) (rng (idx + 1)) (rng (idx + 2))).B : ℚ),
    GLCall.drawArrays GL_TRIANGLE_STRIP 0 4], ?_⟩
  simp [drawScene]

end WebGLExp
